import Mathlib

/-
Shallow embedding of the dali nginx module (hawkinsw/dali).

The repository holds four near-duplicate variants of the module:
  * a Pattern-Fill variant (src/unnamed/part_000): the handler emits
    `conf->length` chain links, each pointing at the shared 4096-byte static
    buffer `response_contents` filled with the byte 'x'; its merge callback
    first converts the configured byte count into 4096-byte quanta;
  * a synchronous Zero-Source-Stream variant (src/ngx_http_dali_module.c,
    first copy): one file-backed buffer over [0, L) of /dev/zero;
  * an asynchronous Zero-Source-Stream variant (second copy): same buffer
    layout, with a request-pool cleanup for the /dev/zero descriptor and a
    body-fetched continuation that sends the response;
  * an Instrumented-Hybrid variant (third copy): times the body discard,
    renders a JSON report, and prepends it to a zero-filled allocation.

Bytes are modelled as `Nat` values (0..255); size_t arithmetic that can wrap
is taken modulo 2^64; nginx pool allocations, the body-discard call, the
clock, /dev/zero open and header send are external effects, modelled by
oracle records whose fields say whether each call succeeds.
-/

namespace Dali

/-- RESPONSE_MULTIPLE from part_000: the fixed 4096-byte quantum. -/
def RESPONSE_MULTIPLE : Nat := 4096

/-- NGX_CONF_UNSET_SIZE, the all-ones size_t sentinel for an unset config. -/
def NGX_CONF_UNSET_SIZE : Nat := 2 ^ 64 - 1

/-- Modulus of C size_t arithmetic on the observed 64-bit platform. -/
def SIZE_T_MOD : Nat := 2 ^ 64

def NGX_HTTP_OK : Nat := 200

def NGX_HTTP_INTERNAL_SERVER_ERROR : Nat := 500

/-- NGX_ERROR, the generic nginx failure return value. -/
def NGX_ERROR : Int := -1

/-- The byte 'x' that x_initialize writes into every cell of the pattern
buffer. -/
def patternByte : Nat := 120

/-- The process-wide static buffer `response_contents` of part_000, after
`ngx_http_dali_enable` has run `x_initialize(response_contents,
RESPONSE_MULTIPLE)`, whose loop stores 'x' at every index. -/
def response_contents : List Nat := List.replicate RESPONSE_MULTIPLE patternByte

/-- Merge callback shared by the three copies inside ngx_http_dali_module.c:
inherit the smaller positive size, otherwise keep the child value. -/
def ngx_http_dali_merge_conf (prev conf : Nat) : Nat :=
  if 0 < prev ∧ prev < conf then prev else conf

/-- Merge callback of part_000 (`ngx_http_dali_merge_conf` there): the child
byte count is first converted to a number of 4096-byte quanta, rounding up
(`conf->length = (conf_len % RESPONSE_MULTIPLE != 0) + conf_len /
RESPONSE_MULTIPLE`), then the same smaller-wins rule against the parent value
is applied. -/
def ngx_http_dali_merge_conf_pattern (prev conf_len : Nat) : Nat :=
  ngx_http_dali_merge_conf prev
    ((if conf_len % RESPONSE_MULTIPLE ≠ 0 then 1 else 0) + conf_len / RESPONSE_MULTIPLE)

/-- One memory-backed ngx_buf_t of the Pattern-Fill handler: `pos` is the
offset of `pos` into `response_contents`, `len` is `last - pos`. -/
structure MemBuf where
  pos : Nat
  len : Nat
  last_buf : Bool
deriving DecidableEq

/-- The chain the Pattern-Fill handler loop builds: `confLen` links, each
with `pos = response_contents`, `last = response_contents +
RESPONSE_MULTIPLE`, and `last_buf` set on the final iteration only. -/
def patternChain (confLen : Nat) : List MemBuf :=
  (List.range confLen).map fun index =>
    { pos := 0, len := RESPONSE_MULTIPLE, last_buf := index + 1 == confLen }

/-- External-effect outcomes for one Pattern-Fill request: whether the module
configuration lookup succeeds, whether discarding the request body succeeds,
at which loop iteration (if any) `ngx_calloc_buf` returns NULL (that failure
is checked: the code logs, NULLs the chain head and breaks), and at which
iteration (if any) the `ngx_pcalloc` of the ngx_chain_t link returns NULL
(that failure is NOT checked anywhere). -/
structure PatternOracle where
  confPresent : Bool
  discardOk : Bool
  allocFailAt : Option Nat
  chainLinkAllocFailAt : Option Nat
deriving DecidableEq

/-- Whether the Pattern-Fill loop dereferences NULL: the chain-link
`ngx_pcalloc` result is never tested, so if it is NULL at a reached
iteration the loop stores into `output_chain_iterator->buf` through NULL. An
iteration is reached only if the checked `ngx_calloc_buf` did not fail at
that or an earlier iteration (the checked failure breaks out first, within
an iteration the buffer allocation comes first). -/
def patternCrash (confLen : Nat) (o : PatternOracle) : Bool :=
  match o.chainLinkAllocFailAt with
  | none => false
  | some k =>
    match o.allocFailAt with
    | none => decide (k < confLen)
    | some j => decide (k < confLen ∧ k < j)

/-- What Pattern-Fill loop construction yields: on an allocation failure the
code sets `output_chain_head = NULL` and breaks, which the caller treats like
an empty chain. -/
def patternChainAlloc (confLen : Nat) (failAt : Option Nat) : Option (List MemBuf) :=
  match failAt with
  | some k => if k < confLen then none else some (patternChain confLen)
  | none => some (patternChain confLen)

/-- Observable outcome of the Pattern-Fill handler: the response status, the
Content-Length value it stores, the buffer chain it hands to
ngx_http_output_filter (empty on the error path, which sends only headers),
and whether the handler instead dereferenced NULL (the worker crashes and
produces no response at all; the other fields then hold 0/[] placeholders
that nothing observes). -/
structure PatternResult where
  status : Nat
  content_length : Nat
  chain : List MemBuf
  crashed : Bool
deriving DecidableEq

/-- Pattern-Fill request handler (`ngx_http_dali_handler` of part_000).
`confLen` is the merged `conf->length`, already measured in quanta. An
unchecked chain-link allocation failure at a reached iteration dereferences
NULL before any error path runs. Otherwise, if the configuration is missing,
the body discard fails, or the chain head is NULL (checked buffer allocation
failure, or a zero-iteration loop), the collected error path sets status 500
and Content-Length 0 and sends only headers; otherwise the handler sends
`confLen` pattern buffers and Content-Length
`conf->length * RESPONSE_MULTIPLE` (a size_t product). -/
def ngx_http_dali_handler_pattern (o : PatternOracle) (confLen : Nat) : PatternResult :=
  if o.confPresent ∧ o.discardOk ∧ patternCrash confLen o = true then
    { status := 0, content_length := 0, chain := [], crashed := true }
  else
    let chainOpt : Option (List MemBuf) :=
      if o.confPresent ∧ o.discardOk then patternChainAlloc confLen o.allocFailAt else none
    match chainOpt with
    | some (b :: rest) =>
        { status := NGX_HTTP_OK
          content_length := confLen * RESPONSE_MULTIPLE % SIZE_T_MOD
          chain := b :: rest
          crashed := false }
    | _ =>
        { status := NGX_HTTP_INTERNAL_SERVER_ERROR
          content_length := 0
          chain := []
          crashed := false }

/-- Bytes contributed by one memory-backed buffer: the span
[pos, pos + len) of the shared static buffer. -/
def memBufBytes (b : MemBuf) : List Nat := (response_contents.drop b.pos).take b.len

/-- Response body bytes produced by a chain of memory-backed buffers. -/
def chainBytes (c : List MemBuf) : List Nat := (c.map memBufBytes).flatten

/-- Ceiling division of a byte count into RESPONSE_MULTIPLE quanta, the
specification-side formula ceil(L / 4096). -/
def ceilQuanta (L : Nat) : Nat := (L + (RESPONSE_MULTIPLE - 1)) / RESPONSE_MULTIPLE

theorem merge_pattern_round_up (L : Nat) (h : L < SIZE_T_MOD) :
    ngx_http_dali_merge_conf_pattern NGX_CONF_UNSET_SIZE L = ceilQuanta L := by
  unfold ngx_http_dali_merge_conf_pattern ngx_http_dali_merge_conf ceilQuanta
    NGX_CONF_UNSET_SIZE RESPONSE_MULTIPLE
  unfold SIZE_T_MOD at h
  split <;> split <;> omega

theorem length_patternChain (n : Nat) : (patternChain n).length = n := by
  simp [patternChain]

theorem map_const_of_mem {α β : Type} (l : List α) (f : α → β) (c : β)
    (h : ∀ x ∈ l, f x = c) : l.map f = List.replicate l.length c := by
  induction l with
  | nil => simp
  | cons a t ih =>
    simp only [List.map_cons, List.length_cons, List.replicate_succ]
    rw [h a (List.mem_cons_self a t), ih fun x hx => h x (List.mem_cons_of_mem a hx)]

theorem flatten_replicate_replicate {α : Type} (k m : Nat) (a : α) :
    (List.replicate k (List.replicate m a)).flatten = List.replicate (k * m) a := by
  induction k with
  | zero => simp
  | succ j ih =>
    rw [List.replicate_succ, List.flatten_cons, ih, ← List.replicate_add,
      Nat.succ_mul, Nat.add_comm]

theorem take_replicate_eq {α : Type} (m : Nat) (a : α) :
    (List.replicate m a).take m = List.replicate m a := by
  induction m with
  | zero => simp
  | succ k ih => simp [List.replicate_succ, ih]

theorem memBufBytes_pattern (b : MemBuf) (hp : b.pos = 0)
    (hl : b.len = RESPONSE_MULTIPLE) : memBufBytes b = response_contents := by
  unfold memBufBytes response_contents
  rw [hp, hl, List.drop_zero]
  exact take_replicate_eq _ _

theorem patternChain_fields (n : Nat) (b : MemBuf) (hb : b ∈ patternChain n) :
    b.pos = 0 ∧ b.len = RESPONSE_MULTIPLE := by
  unfold patternChain at hb
  simp only [List.mem_map, List.mem_range] at hb
  obtain ⟨i, _, rfl⟩ := hb
  exact ⟨rfl, rfl⟩

theorem map_memBufBytes_patternChain (n : Nat) :
    (patternChain n).map memBufBytes = List.replicate n response_contents := by
  have h := map_const_of_mem (patternChain n) memBufBytes response_contents
    fun b hb => memBufBytes_pattern b (patternChain_fields n b hb).1
      (patternChain_fields n b hb).2
  rwa [length_patternChain] at h

theorem chainBytes_patternChain (n : Nat) :
    chainBytes (patternChain n) = List.replicate (n * RESPONSE_MULTIPLE) patternByte := by
  unfold chainBytes
  rw [map_memBufBytes_patternChain, response_contents, flatten_replicate_replicate]

theorem handler_pattern_zero :
    ngx_http_dali_handler_pattern ⟨true, true, none, none⟩ 0
      = ⟨NGX_HTTP_INTERNAL_SERVER_ERROR, 0, [], false⟩ := by decide

theorem handler_pattern_pos (n : Nat) (hn : n ≠ 0) :
    ngx_http_dali_handler_pattern ⟨true, true, none, none⟩ n
      = ⟨NGX_HTTP_OK, n * RESPONSE_MULTIPLE % SIZE_T_MOD, patternChain n, false⟩ := by
  obtain ⟨m, rfl⟩ := Nat.exists_eq_succ_of_ne_zero hn
  unfold ngx_http_dali_handler_pattern patternChainAlloc
  rw [show patternChain (m + 1)
        = (MemBuf.mk 0 RESPONSE_MULTIPLE (0 + 1 == m + 1))
          :: (List.map Nat.succ (List.range m)).map fun index =>
              MemBuf.mk 0 RESPONSE_MULTIPLE (index + 1 == m + 1) by
      unfold patternChain
      rw [List.range_succ_eq_map, List.map_cons]]
  simp [patternChain, patternCrash, List.range_succ_eq_map]

/-- Claim C1: for every configured length L handled by Pattern-Fill, the
merged configuration is ceil(L/4096) quanta; the handler builds that many
buffer descriptors, each 4096 bytes long and each referencing the shared
static pattern buffer at offset 0; Content-Length is ceil(L/4096)*4096; and
every response body byte equals the pattern byte 'x'. The bound keeps the
size_t product `conf->length * RESPONSE_MULTIPLE` inside the off_t range, as
any length the configuration parser can produce is. -/
theorem dali_pattern_fill_exact_layout (L : Nat) (h : L ≤ 2 ^ 63 - RESPONSE_MULTIPLE) :
    ngx_http_dali_merge_conf_pattern NGX_CONF_UNSET_SIZE L = ceilQuanta L ∧
    (ngx_http_dali_handler_pattern ⟨true, true, none, none⟩
        (ngx_http_dali_merge_conf_pattern NGX_CONF_UNSET_SIZE L)).chain.length
      = ceilQuanta L ∧
    (∀ b ∈ (ngx_http_dali_handler_pattern ⟨true, true, none, none⟩
        (ngx_http_dali_merge_conf_pattern NGX_CONF_UNSET_SIZE L)).chain,
      b.pos = 0 ∧ b.len = RESPONSE_MULTIPLE) ∧
    (ngx_http_dali_handler_pattern ⟨true, true, none, none⟩
        (ngx_http_dali_merge_conf_pattern NGX_CONF_UNSET_SIZE L)).content_length
      = ceilQuanta L * RESPONSE_MULTIPLE ∧
    chainBytes (ngx_http_dali_handler_pattern ⟨true, true, none, none⟩
        (ngx_http_dali_merge_conf_pattern NGX_CONF_UNSET_SIZE L)).chain
      = List.replicate (ceilQuanta L * RESPONSE_MULTIPLE) patternByte := by
  have hL : L < SIZE_T_MOD := by
    unfold RESPONSE_MULTIPLE at h
    unfold SIZE_T_MOD
    omega
  have hm := merge_pattern_round_up L hL
  have hq : ceilQuanta L * RESPONSE_MULTIPLE < SIZE_T_MOD := by
    unfold RESPONSE_MULTIPLE at h
    unfold ceilQuanta RESPONSE_MULTIPLE SIZE_T_MOD
    omega
  rw [hm]
  by_cases hc : ceilQuanta L = 0
  · rw [hc, handler_pattern_zero]
    refine ⟨rfl, rfl, ?_, by simp, by simp [chainBytes]⟩
    intro b hb
    simp at hb
  · rw [handler_pattern_pos _ hc]
    exact ⟨rfl, length_patternChain _,
      fun b hb => patternChain_fields _ b hb,
      Nat.mod_eq_of_lt hq,
      chainBytes_patternChain _⟩

/-- Witness for C1 at the spec's own scenario L = 10000: 3 buffers of 4096
bytes, Content-Length 12288, all bytes 'x'. -/
theorem dali_pattern_fill_exact_layout_witness :
    10000 ≤ 2 ^ 63 - RESPONSE_MULTIPLE ∧
    (ngx_http_dali_merge_conf_pattern NGX_CONF_UNSET_SIZE 10000 = ceilQuanta 10000 ∧
     (ngx_http_dali_handler_pattern ⟨true, true, none, none⟩
         (ngx_http_dali_merge_conf_pattern NGX_CONF_UNSET_SIZE 10000)).chain.length
       = ceilQuanta 10000 ∧
     (∀ b ∈ (ngx_http_dali_handler_pattern ⟨true, true, none, none⟩
         (ngx_http_dali_merge_conf_pattern NGX_CONF_UNSET_SIZE 10000)).chain,
       b.pos = 0 ∧ b.len = RESPONSE_MULTIPLE) ∧
     (ngx_http_dali_handler_pattern ⟨true, true, none, none⟩
         (ngx_http_dali_merge_conf_pattern NGX_CONF_UNSET_SIZE 10000)).content_length
       = ceilQuanta 10000 * RESPONSE_MULTIPLE ∧
     chainBytes (ngx_http_dali_handler_pattern ⟨true, true, none, none⟩
         (ngx_http_dali_merge_conf_pattern NGX_CONF_UNSET_SIZE 10000)).chain
       = List.replicate (ceilQuanta 10000 * RESPONSE_MULTIPLE) patternByte) :=
  ⟨by decide, dali_pattern_fill_exact_layout 10000 (by decide)⟩

/-- Claim C5 counterexample: with a configured length of 0 the Pattern-Fill
module does NOT emit one full quantum: the merged length is 0 quanta, so the
loop builds no buffer at all and the body is empty. -/
theorem dali_pattern_zero_config_no_buffer :
    ngx_http_dali_merge_conf_pattern NGX_CONF_UNSET_SIZE 0 = 0 ∧
    ¬ 1 ≤ (ngx_http_dali_handler_pattern ⟨true, true, none, none⟩
        (ngx_http_dali_merge_conf_pattern NGX_CONF_UNSET_SIZE 0)).chain.length ∧
    chainBytes (ngx_http_dali_handler_pattern ⟨true, true, none, none⟩
        (ngx_http_dali_merge_conf_pattern NGX_CONF_UNSET_SIZE 0)).chain = [] := by
  decide

/-- Claim C5 amended: a configured length of 0 merges to zero quanta; the
Pattern-Fill handler builds no buffers, treats the NULL chain head as a
failure, and responds 500 with Content-Length 0 and an empty body. -/
theorem dali_pattern_zero_config_500 :
    ngx_http_dali_handler_pattern ⟨true, true, none, none⟩
        (ngx_http_dali_merge_conf_pattern NGX_CONF_UNSET_SIZE 0)
      = ⟨NGX_HTTP_INTERNAL_SERVER_ERROR, 0, [], false⟩ := by decide

/-- One file-backed ngx_buf_t of the Zero-Source-Stream variants, reading
the span [file_pos, file_last) of /dev/zero. -/
structure FileBuf where
  file_pos : Nat
  file_last : Nat
  in_file : Bool
  last_buf : Bool
  last_in_chain : Bool
deriving DecidableEq

/-- Bytes produced by sending a file-backed buffer: reading /dev/zero yields
a zero byte for every position of the [file_pos, file_last) window. -/
def fileBufBytes (b : FileBuf) : List Nat :=
  List.replicate (b.file_last - b.file_pos) 0

/-- The request fields the Zero-Source-Stream handlers mutate. nginx
allocates the request record with pcalloc, so `allow_ranges` starts at 0;
`sendfile` starts at whatever the location configuration enables. -/
structure ReqState where
  sendfile : Bool
  allow_ranges : Bool
  status : Option Nat
  content_length : Option Nat
deriving DecidableEq

def initialReqState (sendfileCfg : Bool) : ReqState :=
  { sendfile := sendfileCfg
    allow_ranges := false
    status := none
    content_length := none }

/-- External-effect outcomes for one synchronous Zero-Source-Stream request:
configuration lookup, body discard, each of the four pool allocations
(the ngx_chain_t, the ngx_buf_t, the ngx_file_t and the /dev/zero path
string), the /dev/zero open, the ngx_http_send_header return value, and
r->header_only. -/
structure ZeroOracle where
  confPresent : Bool
  discardOk : Bool
  chainAllocOk : Bool
  bufAllocOk : Bool
  fileAllocOk : Bool
  pathAllocOk : Bool
  openOk : Bool
  headerRC : Int
  headerOnly : Bool
deriving DecidableEq

/-- Trace of one synchronous Zero-Source-Stream request: the request state
at the moment ngx_http_send_header is invoked (none if the handler bailed
out before sending headers), the final request state, the chain handed to
the output filter, the handler's return value, whether the body chain was
submitted, and whether the handler instead dereferenced NULL (the worker
crashes and produces no response; the other fields then hold placeholders
that nothing observes). -/
structure ZeroRun where
  state_at_header_send : Option ReqState
  final : ReqState
  chain : List FileBuf
  returned : Int
  body_sent : Bool
  crashed : Bool
deriving DecidableEq

/-- Synchronous Zero-Source-Stream handler (`ngx_http_dali_handler`, first
copy in ngx_http_dali_module.c). Mirrors the source order: config lookup and
body discard each return 500; then the four allocations run back to back and
`buffer->file = ngx_pcalloc(...)` dereferences the UNCHECKED `buffer`, so a
failed ngx_buf_t allocation crashes before the combined NULL test; the other
three allocation failures and a failed /dev/zero open return 500 before any
buffer is configured; then the single file-backed buffer over
[0, conf->length), `r->connection->sendfile = 0`, Content-Length =
conf->length, status 200; then ngx_http_send_header; only AFTER the header
call returns does the code set `r->allow_ranges = 1`; finally the chain goes
to ngx_http_output_filter unless the header send failed or only headers were
requested. -/
def ngx_http_dali_handler_zero (o : ZeroOracle) (sendfileCfg : Bool) (L : Nat) : ZeroRun :=
  let s0 := initialReqState sendfileCfg
  if ¬ (o.confPresent ∧ o.discardOk) then
    { state_at_header_send := none
      final := s0
      chain := []
      returned := (NGX_HTTP_INTERNAL_SERVER_ERROR : Nat)
      body_sent := false
      crashed := false }
  else if ¬ o.bufAllocOk then
    { state_at_header_send := none
      final := s0
      chain := []
      returned := 0
      body_sent := false
      crashed := true }
  else if ¬ (o.chainAllocOk ∧ o.fileAllocOk ∧ o.pathAllocOk) then
    { state_at_header_send := none
      final := s0
      chain := []
      returned := (NGX_HTTP_INTERNAL_SERVER_ERROR : Nat)
      body_sent := false
      crashed := false }
  else if ¬ o.openOk then
    { state_at_header_send := none
      final := s0
      chain := []
      returned := (NGX_HTTP_INTERNAL_SERVER_ERROR : Nat)
      body_sent := false
      crashed := false }
  else
    let buf : FileBuf :=
      { file_pos := 0, file_last := L, in_file := true
        last_buf := true, last_in_chain := true }
    let s1 : ReqState := { s0 with sendfile := false }
    let s2 : ReqState :=
      { s1 with content_length := some L, status := some NGX_HTTP_OK }
    -- ngx_http_send_header runs with the request in state s2
    if o.headerRC = NGX_ERROR then
      { state_at_header_send := some s2
        final := s2
        chain := [buf]
        returned := o.headerRC
        body_sent := false
        crashed := false }
    else
      let s3 : ReqState := { s2 with allow_ranges := true }
      if 0 < o.headerRC ∨ o.headerOnly then
        { state_at_header_send := some s2
          final := s3
          chain := [buf]
          returned := o.headerRC
          body_sent := false
          crashed := false }
      else
        { state_at_header_send := some s2
          final := s3
          chain := [buf]
          returned := 0
          body_sent := true
          crashed := false }

/-- External-effect outcomes for one asynchronous Zero-Source-Stream request
(second copy): context allocation, configuration lookup, each of the three
meta allocations, the /dev/zero open, and the `ngx_pool_cleanup_add` call. -/
structure AsyncOracle where
  ctxAllocOk : Bool
  confPresent : Bool
  chainAllocOk : Bool
  bufAllocOk : Bool
  fileAllocOk : Bool
  openOk : Bool
  clnAllocOk : Bool
deriving DecidableEq

/-- Outcome of the asynchronous handler up to the point where it hands off
to ngx_http_read_client_request_body: whether /dev/zero was opened, whether
the pool cleanup got registered, the error status returned (none on the
success path, where the continuation finishes the request), the buffer
chain stored in the per-request context, and whether the handler instead
dereferenced NULL (the worker crashes and produces no response; the other
fields then hold placeholders that nothing observes). -/
structure AsyncRun where
  opened : Bool
  cleanupRegistered : Bool
  errorStatus : Option Nat
  chain : List FileBuf
  crashed : Bool
deriving DecidableEq

/-- Asynchronous Zero-Source-Stream handler (`ngx_http_dali_handler`, second
copy). Source order: pcalloc the dali context, read the module conf, then
the three meta allocations run back to back and
`dali_ctx->buffer->file = ngx_pcalloc(...)` dereferences the UNCHECKED
`dali_ctx->buffer`, so a failed ngx_buf_t allocation crashes before the
combined NULL test; then open /dev/zero, then `ngx_pool_cleanup_add`; if
that last call fails the handler returns 500 with the descriptor already
open and no cleanup registered; otherwise it registers
`ngx_http_dali_cleanup`, configures the single buffer over
[0, conf->length), and suspends on the client body. -/
def ngx_http_dali_handler_async (o : AsyncOracle) (L : Nat) : AsyncRun :=
  if ¬ o.ctxAllocOk then
    { opened := false, cleanupRegistered := false
      errorStatus := some NGX_HTTP_INTERNAL_SERVER_ERROR, chain := [], crashed := false }
  else if ¬ o.confPresent then
    { opened := false, cleanupRegistered := false
      errorStatus := some NGX_HTTP_INTERNAL_SERVER_ERROR, chain := [], crashed := false }
  else if ¬ o.bufAllocOk then
    { opened := false, cleanupRegistered := false
      errorStatus := none, chain := [], crashed := true }
  else if ¬ (o.chainAllocOk ∧ o.fileAllocOk) then
    { opened := false, cleanupRegistered := false
      errorStatus := some NGX_HTTP_INTERNAL_SERVER_ERROR, chain := [], crashed := false }
  else if ¬ o.openOk then
    { opened := false, cleanupRegistered := false
      errorStatus := some NGX_HTTP_INTERNAL_SERVER_ERROR, chain := [], crashed := false }
  else if ¬ o.clnAllocOk then
    { opened := true, cleanupRegistered := false
      errorStatus := some NGX_HTTP_INTERNAL_SERVER_ERROR, chain := [], crashed := false }
  else
    { opened := true, cleanupRegistered := true
      errorStatus := none
      chain := [{ file_pos := 0, file_last := L, in_file := true
                  last_buf := true, last_in_chain := true }]
      crashed := false }

/-- The ways a request that got past the handler's own early returns can
terminate. -/
inductive AsyncExit
  | normalCompletion
  | headerSendFailure
  | bodyReadFailure
  | requestAbort
deriving DecidableEq

/-- How many times the /dev/zero descriptor of a request is closed over the
request's whole lifetime: nginx destroys the request pool exactly once on
every termination path and runs each registered cleanup handler exactly once
then; `ngx_http_dali_cleanup` closes the descriptor, and nothing else closes
it. -/
def closeCount (run : AsyncRun) (_exitPath : AsyncExit) : Nat :=
  if run.cleanupRegistered then 1 else 0

/-- External-effect outcomes for the body-fetched continuation of the
asynchronous variant: context retrieval, header send result, header_only. -/
structure ContOracle where
  ctxPresent : Bool
  headerRC : Int
  headerOnly : Bool
deriving DecidableEq

/-- Trace of `ngx_http_dali_client_body_fetched_handler`: the request state
when ngx_http_send_header is invoked, the final state, the status passed to
ngx_http_finalize_request on its error paths, and whether the body chain was
submitted. The function sets Content-Length, status 200 and
`r->connection->sendfile = 0` before sending headers; it never touches
`r->allow_ranges`. -/
structure ContRun where
  state_at_header_send : Option ReqState
  final : ReqState
  finalizedStatus : Option Nat
  body_sent : Bool
deriving DecidableEq

def ngx_http_dali_client_body_fetched_handler (o : ContOracle) (sendfileCfg : Bool)
    (L : Nat) : ContRun :=
  let s0 := initialReqState sendfileCfg
  if ¬ o.ctxPresent then
    { state_at_header_send := none
      final := s0
      finalizedStatus := some NGX_HTTP_INTERNAL_SERVER_ERROR
      body_sent := false }
  else
    let s1 : ReqState :=
      { s0 with content_length := some L, status := some NGX_HTTP_OK, sendfile := false }
    -- ngx_http_send_header runs with the request in state s1
    if o.headerRC = NGX_ERROR then
      { state_at_header_send := some s1
        final := s1
        finalizedStatus := some NGX_HTTP_INTERNAL_SERVER_ERROR
        body_sent := false }
    else if 0 < o.headerRC ∨ o.headerOnly then
      { state_at_header_send := some s1
        final := s1
        finalizedStatus := some NGX_HTTP_INTERNAL_SERVER_ERROR
        body_sent := false }
    else
      { state_at_header_send := some s1
        final := s1
        finalizedStatus := none
        body_sent := true }

/-- Claim C2: a Zero-Source-Stream request with configured length L is
answered by a single file-backed buffer spanning exactly [0, L) of
/dev/zero, marked as the last buffer of the chain, with Content-Length
exactly L (no rounding) and a body of L zero bytes; the asynchronous
variant stores the identical buffer in its per-request context. -/
theorem dali_zero_stream_exact_length (L : Nat) :
    (ngx_http_dali_handler_zero ⟨true, true, true, true, true, true, true, 0, false⟩ true L).chain
      = [⟨0, L, true, true, true⟩] ∧
    (ngx_http_dali_handler_zero ⟨true, true, true, true, true, true, true, 0, false⟩ true L).final.content_length
      = some L ∧
    (ngx_http_dali_handler_zero ⟨true, true, true, true, true, true, true, 0, false⟩ true L).final.status
      = some NGX_HTTP_OK ∧
    ((ngx_http_dali_handler_zero ⟨true, true, true, true, true, true, true, 0, false⟩ true L).chain.map
        fileBufBytes).flatten = List.replicate L 0 ∧
    (ngx_http_dali_handler_zero ⟨true, true, true, true, true, true, true, 0, false⟩ true L).body_sent = true ∧
    (ngx_http_dali_handler_async ⟨true, true, true, true, true, true, true⟩ L).chain
      = [⟨0, L, true, true, true⟩] := by
  refine ⟨?_, ?_, ?_, ?_, ?_, ?_⟩ <;>
    simp [ngx_http_dali_handler_zero, ngx_http_dali_handler_async,
      initialReqState, fileBufBytes, NGX_ERROR, NGX_HTTP_OK]

/-- Claim C8 evaluation at a served request with L = 500: when
ngx_http_send_header runs, the synchronous Zero-Source-Stream handler has
sendfile already disabled but allow_ranges still 0 — `r->allow_ranges = 1`
executes only after the header call returns — and the asynchronous variant
never sets allow_ranges at all. -/
theorem dali_zero_allow_ranges_not_set_at_header_send :
    (ngx_http_dali_handler_zero ⟨true, true, true, true, true, true, true, 0, false⟩ true 500).state_at_header_send
      = some ⟨false, false, some NGX_HTTP_OK, some 500⟩ ∧
    (ngx_http_dali_handler_zero ⟨true, true, true, true, true, true, true, 0, false⟩ true 500).final.allow_ranges
      = true ∧
    (ngx_http_dali_client_body_fetched_handler ⟨true, 0, false⟩ true 500).state_at_header_send
      = some ⟨false, false, some NGX_HTTP_OK, some 500⟩ ∧
    (ngx_http_dali_client_body_fetched_handler ⟨true, 0, false⟩ true 500).final.allow_ranges
      = false := by
  decide

/-- When the pool cleanup was registered, the /dev/zero descriptor is closed
exactly once whichever way the request later terminates: the request pool is
destroyed once per request and runs ngx_http_dali_cleanup once. -/
theorem dali_async_cleanup_closes_exactly_once (o : AsyncOracle) (L : Nat)
    (e : AsyncExit) (hcln : o.clnAllocOk = true)
    (hopen : (ngx_http_dali_handler_async o L).opened = true) :
    closeCount (ngx_http_dali_handler_async o L) e = 1 := by
  unfold ngx_http_dali_handler_async at hopen ⊢
  unfold closeCount
  split_ifs at hopen ⊢ <;> simp_all

/-- Claim C7 evaluation at the failing input: if every step succeeds except
`ngx_pool_cleanup_add` (a pool allocation failure after /dev/zero was
opened), the handler returns 500 with the descriptor open and no cleanup
registered, so the descriptor is closed zero times on every subsequent exit
path — not exactly once. -/
theorem dali_async_fd_leak_when_cleanup_add_fails :
    (ngx_http_dali_handler_async ⟨true, true, true, true, true, true, false⟩ 500).opened
      = true ∧
    (ngx_http_dali_handler_async ⟨true, true, true, true, true, true, false⟩ 500).cleanupRegistered
      = false ∧
    (∀ e : AsyncExit,
      closeCount (ngx_http_dali_handler_async ⟨true, true, true, true, true, true, false⟩ 500) e
        = 0) ∧
    (ngx_http_dali_handler_async ⟨true, true, true, true, true, true, false⟩ 500).errorStatus
      = some NGX_HTTP_INTERNAL_SERVER_ERROR := by
  refine ⟨by decide, by decide, ?_, by decide⟩
  intro e
  cases e <;> decide

/-- memcpy(dst, src, src.length) over byte buffers: src overwrites the front
of dst (src.length ≤ dst.length at every use below). -/
def memcpyInto (dst src : List Nat) : List Nat := src ++ dst.drop src.length

/-- `response_json_len` of the hybrid handler: the character count snprintf
reports for the rendered report text, plus 1 for the terminating NUL
(`snprintf(NULL, 0, ...) + 1`). `json` stands for the rendered text. -/
def response_json_len (json : List Nat) : Nat := json.length + 1

/-- The `response_json` buffer: pcalloc'd (zero-filled) to response_json_len
bytes, after ngx_snprintf has written the rendered text over its front; the
final byte keeps its calloc zero, giving text-plus-NUL. -/
def response_json_buf (json : List Nat) : List Nat :=
  memcpyInto (List.replicate (response_json_len json) 0) json

/-- External-effect outcomes for one Instrumented-Hybrid request: the
configuration lookup, both clock_gettime calls, the body discard, the
response_json allocation (unchecked in the source), the response-memory
allocation, and the ngx_buf_t allocation. -/
structure HybridOracle where
  confPresent : Bool
  clockOk : Bool
  discardOk : Bool
  rjAllocOk : Bool
  memAllocOk : Bool
  bufAllocOk : Bool
deriving DecidableEq

/-- Observable outcome of the Instrumented-Hybrid handler: status, the
Content-Length it stores, the bytes of the single memory buffer it emits
(`pos` to `last` spans the whole allocation), its last_buf flag, and
whether the handler instead dereferenced NULL (the worker crashes and
produces no response; the other fields then hold placeholders that nothing
observes). -/
structure HybridResult where
  status : Nat
  content_length : Nat
  body : List Nat
  last_buf : Bool
  crashed : Bool
deriving DecidableEq

/-- Instrumented-Hybrid handler (`ngx_http_dali_handler`, third copy).
`json` is the text ngx_snprintf renders from the timing template. If either
clock_gettime fails, the report block is skipped and response_json_len stays
0. Inside the report block the `response_json = ngx_pcalloc(...)` result is
never tested and ngx_snprintf writes through it at once, so if that
allocation fails the worker dereferences NULL (whatever the body-discard
outcome) before any error path runs. Otherwise a missing configuration, a
failed body discard, or a failed (checked) allocation takes the collected
error path (status 500, Content-Length 0, headers only); else `memory` is
pcalloc'd to conf->length + response_json_len bytes, the response_json
buffer is memcpy'd onto its front, and the response buffer spans
`memory .. memory + conf->length + response_json_len`, with Content-Length
the same size_t sum. -/
def ngx_http_dali_handler_hybrid (o : HybridOracle) (L : Nat) (json : List Nat) :
    HybridResult :=
  if o.confPresent ∧ o.clockOk ∧ ¬ o.rjAllocOk then
    { status := 0, content_length := 0, body := [], last_buf := false, crashed := true }
  else
    let rjlen := if o.clockOk then response_json_len json else 0
    let rjson := if o.clockOk then response_json_buf json else []
    if ¬ (o.confPresent ∧ o.discardOk ∧ o.memAllocOk ∧ o.bufAllocOk) then
      { status := NGX_HTTP_INTERNAL_SERVER_ERROR
        content_length := 0
        body := []
        last_buf := false
        crashed := false }
    else
      { status := NGX_HTTP_OK
        content_length := (L + rjlen) % SIZE_T_MOD
        body := memcpyInto (List.replicate (L + rjlen) 0) rjson
        last_buf := true
        crashed := false }

/-- A concrete plausible rendering of the timing template
`"..DurationMS..: %.8f, ..Bytes..: %d, ..BPS..: %d.."` with duration 0,
0 bytes and the placeholder 0, as a byte list; its last byte is the closing
brace 125. -/
def jsonExample : List Nat :=
  ("\x7b\"DurationMS\": 0.00000000, \"Bytes\": 0, \"BPS\": 0\x7d").data.map Char.toNat

theorem drop_replicate_eq {α : Type} (a : α) :
    ∀ (n m : Nat), (List.replicate n a).drop m = List.replicate (n - m) a := by
  intro n
  induction n with
  | zero => intro m; simp
  | succ k ih =>
    intro m
    cases m with
    | zero => simp
    | succ j =>
      rw [List.replicate_succ, List.drop_succ_cons, ih j, Nat.succ_sub_succ]

theorem hybrid_body_eq (L : Nat) (json : List Nat) :
    memcpyInto (List.replicate (L + response_json_len json) 0) (response_json_buf json)
      = json ++ 0 :: List.replicate L 0 := by
  unfold memcpyInto response_json_buf memcpyInto response_json_len
  rw [drop_replicate_eq, drop_replicate_eq]
  have h1 : json.length + 1 - json.length = 1 := by omega
  rw [h1]
  have h2 : (json ++ List.replicate 1 0).length = json.length + 1 := by simp
  rw [h2]
  have h3 : L + (json.length + 1) - (json.length + 1) = L := by omega
  rw [h3, List.append_assoc]
  rfl

/-- Claim C3 counterexample: with budget L = 256 and a concrete rendered
report, Content-Length is 256 + N (the serialized report is ADDED to the
budget), not 256; and with L = 0 < N the handler still succeeds with
Content-Length N instead of failing closed. -/
theorem dali_hybrid_content_length_exceeds_budget :
    (ngx_http_dali_handler_hybrid ⟨true, true, true, true, true, true⟩ 256 jsonExample).content_length
      ≠ 256 ∧
    (ngx_http_dali_handler_hybrid ⟨true, true, true, true, true, true⟩ 256 jsonExample).content_length
      = 256 + jsonExample.length + 1 ∧
    (ngx_http_dali_handler_hybrid ⟨true, true, true, true, true, true⟩ 0 jsonExample).status
      = NGX_HTTP_OK ∧
    (ngx_http_dali_handler_hybrid ⟨true, true, true, true, true, true⟩ 0 jsonExample).content_length
      = jsonExample.length + 1 := by
  decide

/-- Claim C3 amended: the hybrid response body and Content-Length equal
L + N, where N = response_json_len (the rendered report text plus its NUL);
the first N bytes are the report buffer and the remaining L bytes are the
zero bytes of the pcalloc'd allocation (there is no pattern buffer in this
variant); no N > L check exists because the report is added on top of the
budget, so nothing is ever truncated. -/
theorem dali_hybrid_report_plus_budget (L : Nat) (json : List Nat)
    (h : L + json.length + 1 < SIZE_T_MOD) :
    (ngx_http_dali_handler_hybrid ⟨true, true, true, true, true, true⟩ L json).status
      = NGX_HTTP_OK ∧
    (ngx_http_dali_handler_hybrid ⟨true, true, true, true, true, true⟩ L json).content_length
      = L + response_json_len json ∧
    (ngx_http_dali_handler_hybrid ⟨true, true, true, true, true, true⟩ L json).body
      = json ++ 0 :: List.replicate L 0 ∧
    (ngx_http_dali_handler_hybrid ⟨true, true, true, true, true, true⟩ L json).body.length
      = L + response_json_len json := by
  have he : ngx_http_dali_handler_hybrid ⟨true, true, true, true, true, true⟩ L json
      = ⟨NGX_HTTP_OK, (L + response_json_len json) % SIZE_T_MOD,
         json ++ 0 :: List.replicate L 0, true, false⟩ := by
    unfold ngx_http_dali_handler_hybrid
    rw [if_neg (by simp), if_neg (by simp)]
    simp [hybrid_body_eq]
  rw [he]
  refine ⟨rfl, ?_, rfl, ?_⟩
  · exact Nat.mod_eq_of_lt (by unfold response_json_len; omega)
  · simp [response_json_len]
    omega

/-- Witness for the amended C3 at L = 256 with the concrete report. -/
theorem dali_hybrid_report_plus_budget_witness :
    256 + jsonExample.length + 1 < SIZE_T_MOD ∧
    ((ngx_http_dali_handler_hybrid ⟨true, true, true, true, true, true⟩ 256 jsonExample).status
       = NGX_HTTP_OK ∧
     (ngx_http_dali_handler_hybrid ⟨true, true, true, true, true, true⟩ 256 jsonExample).content_length
       = 256 + response_json_len jsonExample ∧
     (ngx_http_dali_handler_hybrid ⟨true, true, true, true, true, true⟩ 256 jsonExample).body
       = jsonExample ++ 0 :: List.replicate 256 0 ∧
     (ngx_http_dali_handler_hybrid ⟨true, true, true, true, true, true⟩ 256 jsonExample).body.length
       = 256 + response_json_len jsonExample) :=
  ⟨by decide, dali_hybrid_report_plus_budget 256 jsonExample (by decide)⟩

theorem get?_append_left {α : Type} :
    ∀ (l1 l2 : List α) (i : Nat), i < l1.length → (l1 ++ l2).get? i = l1.get? i := by
  intro l1
  induction l1 with
  | nil => intro l2 i hi; simp at hi
  | cons a t ih =>
    intro l2 i hi
    cases i with
    | zero => rfl
    | succ j =>
      simp only [List.cons_append, List.get?]
      exact ih l2 j (by simpa using hi)

theorem get?_append_at {α : Type} :
    ∀ (l1 l2 : List α) (x : α), (l1 ++ x :: l2).get? l1.length = some x := by
  intro l1
  induction l1 with
  | nil => intro l2 x; rfl
  | cons a t ih => intro l2 x; simpa using ih l2 x

/-- Claim C10: in a successful hybrid response the prefix copied in front of
the body is the rendered JSON text followed by its terminating NUL: the
prefix length is snprintf's count plus one, the byte right after the closing
brace is 0x00, and Content-Length (L + N) counts that NUL byte. -/
theorem dali_hybrid_report_nul_in_body (L : Nat) (json : List Nat)
    (hne : json ≠ [])
    (hbrace : json.get? (json.length - 1) = some 125)
    (h : L + json.length + 1 < SIZE_T_MOD) :
    response_json_len json = json.length + 1 ∧
    (ngx_http_dali_handler_hybrid ⟨true, true, true, true, true, true⟩ L json).body.take
        (response_json_len json) = json ++ [0] ∧
    (ngx_http_dali_handler_hybrid ⟨true, true, true, true, true, true⟩ L json).body.get?
        (json.length - 1) = some 125 ∧
    (ngx_http_dali_handler_hybrid ⟨true, true, true, true, true, true⟩ L json).body.get?
        json.length = some 0 ∧
    (ngx_http_dali_handler_hybrid ⟨true, true, true, true, true, true⟩ L json).content_length
      = L + response_json_len json := by
  have hbody := (dali_hybrid_report_plus_budget L json h).2.2.1
  have hcl := (dali_hybrid_report_plus_budget L json h).2.1
  refine ⟨rfl, ?_, ?_, ?_, hcl⟩
  · rw [hbody, response_json_len]
    rw [show json ++ 0 :: List.replicate L 0
          = (json ++ [0]) ++ List.replicate L 0 by simp]
    rw [show json.length + 1 = (json ++ [0]).length by simp]
    exact List.take_left _ _
  · rw [hbody]
    rw [get?_append_left json (0 :: List.replicate L 0) (json.length - 1)
      (by cases json with
          | nil => exact absurd rfl hne
          | cons a t => simp)]
    exact hbrace
  · rw [hbody]
    exact get?_append_at json (List.replicate L 0) 0

/-- Witness for C10 at L = 256 with the concrete report text. -/
theorem dali_hybrid_report_nul_in_body_witness :
    jsonExample ≠ [] ∧
    (response_json_len jsonExample = jsonExample.length + 1 ∧
     (ngx_http_dali_handler_hybrid ⟨true, true, true, true, true, true⟩ 256 jsonExample).body.take
         (response_json_len jsonExample) = jsonExample ++ [0] ∧
     (ngx_http_dali_handler_hybrid ⟨true, true, true, true, true, true⟩ 256 jsonExample).body.get?
         (jsonExample.length - 1) = some 125 ∧
     (ngx_http_dali_handler_hybrid ⟨true, true, true, true, true, true⟩ 256 jsonExample).body.get?
         jsonExample.length = some 0 ∧
     (ngx_http_dali_handler_hybrid ⟨true, true, true, true, true, true⟩ 256 jsonExample).content_length
       = 256 + response_json_len jsonExample) :=
  ⟨by decide, dali_hybrid_report_nul_in_body 256 jsonExample (by decide) (by decide) (by decide)⟩

/-- Claim C4 counterexample: with a parent scope explicitly configured to
length 0 and an unset child (the sentinel 2^64 - 1), the merge keeps the
sentinel — the unset child does NOT inherit the parent unchanged. -/
theorem dali_merge_zero_parent_unset_child :
    ngx_http_dali_merge_conf 0 NGX_CONF_UNSET_SIZE = NGX_CONF_UNSET_SIZE ∧
    NGX_CONF_UNSET_SIZE ≠ 0 := by
  decide

/-- Claim C4 amended: merge(parent, child) = parent.length when
parent.length > 0 and parent.length < child.length, else child.length;
merge is idempotent when child = parent; a positive inherited budget can
only shrink, never grow; and an unset child (the sentinel) inherits the
parent unchanged whenever the parent is positive (when the parent is 0 the
sentinel is kept instead, the counterexample above). -/
theorem dali_merge_law (p c : Nat) :
    ngx_http_dali_merge_conf p c = (if 0 < p ∧ p < c then p else c) ∧
    ngx_http_dali_merge_conf p p = p ∧
    (0 < p → ngx_http_dali_merge_conf p c ≤ p) ∧
    (0 < p → p ≤ NGX_CONF_UNSET_SIZE →
      ngx_http_dali_merge_conf p NGX_CONF_UNSET_SIZE = p) := by
  refine ⟨rfl, ?_, ?_, ?_⟩
  · unfold ngx_http_dali_merge_conf
    split
    · omega
    · rfl
  · intro hp
    unfold ngx_http_dali_merge_conf
    split
    · omega
    · next hcond =>
      push_neg at hcond
      have := hcond hp
      omega
  · intro hp hle
    unfold ngx_http_dali_merge_conf
    split
    · rfl
    · next hcond =>
      push_neg at hcond
      have := hcond hp
      omega

/-- Witness for the amended C4 merge law at parent 8192, child 4096. -/
theorem dali_merge_law_witness :
    ngx_http_dali_merge_conf 8192 8192 = 8192 ∧
    ngx_http_dali_merge_conf 8192 4096 ≤ 8192 ∧
    ngx_http_dali_merge_conf 8192 NGX_CONF_UNSET_SIZE = 8192 :=
  ⟨(dali_merge_law 8192 4096).2.1,
   (dali_merge_law 8192 4096).2.2.1 (by decide),
   (dali_merge_law 8192 4096).2.2.2 (by decide) (by decide)⟩

/-- A struct timespec: seconds and nanoseconds, both signed. -/
structure Timespec where
  tv_sec : Int
  tv_nsec : Int
deriving DecidableEq

/-- diff_timespec: subtract field-wise; if the nanosecond difference is
negative, add 1,000,000,000 ns and borrow one second. -/
def diff_timespec (older newer : Timespec) : Timespec :=
  if newer.tv_nsec - older.tv_nsec < 0 then
    { tv_sec := newer.tv_sec - older.tv_sec - 1
      tv_nsec := newer.tv_nsec - older.tv_nsec + 1000000000 }
  else
    { tv_sec := newer.tv_sec - older.tv_sec
      tv_nsec := newer.tv_nsec - older.tv_nsec }

/-- Total nanoseconds represented by a timespec. -/
def timespecNanos (t : Timespec) : Int := t.tv_sec * 1000000000 + t.tv_nsec

/-- flatten_timespec_to_ms: the C returns
`(long double)(ts->tv_sec * 1e9 + ts->tv_nsec) / 0.001`, modelled over ℚ
with the double literals 1e9 and 0.001 at their ideal rational values (the
binary rounding of 0.001 perturbs the quotient by about one part in 2^52
and cannot affect the factor-of-one-million discrepancy recorded below). -/
def flatten_timespec_to_ms (ts : Timespec) : ℚ :=
  ((ts.tv_sec : ℚ) * 1000000000 + (ts.tv_nsec : ℚ)) / (1 / 1000)

/-- The normalization half of the claim is right: for timestamps whose
nanosecond fields lie in [0, 1e9) with older ≤ newer, diff_timespec returns
exactly newer - older with a nanosecond field back in [0, 1e9). -/
theorem diff_timespec_exact (older newer : Timespec)
    (h1 : 0 ≤ older.tv_nsec) (h2 : older.tv_nsec < 1000000000)
    (h3 : 0 ≤ newer.tv_nsec) (h4 : newer.tv_nsec < 1000000000)
    (hle : timespecNanos older ≤ timespecNanos newer) :
    timespecNanos (diff_timespec older newer)
      = timespecNanos newer - timespecNanos older ∧
    0 ≤ (diff_timespec older newer).tv_nsec ∧
    (diff_timespec older newer).tv_nsec < 1000000000 ∧
    0 ≤ (diff_timespec older newer).tv_sec := by
  unfold timespecNanos at hle ⊢
  unfold diff_timespec
  split <;> simp only [] <;> refine ⟨by ring, by omega, by omega, by omega⟩

/-- Claim C6 evaluation at the failing input older = (0 s, 0 ns),
newer = (0 s, 1 ns): diff_timespec normalizes correctly to (0 s, 1 ns), but
flatten_timespec_to_ms divides the nanosecond total by 0.001 — i.e.
multiplies it by 1000 — returning 1000 where the claimed microsecond value
(sec*1e9 + nsec)/1000 is 1/1000: one million times too large. -/
theorem dali_flatten_not_microseconds :
    diff_timespec ⟨0, 0⟩ ⟨0, 1⟩ = ⟨0, 1⟩ ∧
    flatten_timespec_to_ms ⟨0, 1⟩ = 1000 ∧
    flatten_timespec_to_ms ⟨0, 1⟩ ≠ ((0 : ℚ) * 1000000000 + 1) / 1000 ∧
    ((0 : ℚ) * 1000000000 + 1) / 1000 = 1 / 1000 := by
  refine ⟨by decide, ?_, ?_, by norm_num⟩
  · unfold flatten_timespec_to_ms
    norm_num
  · unfold flatten_timespec_to_ms
    norm_num

/-- The CHECKED error disjunction of the Pattern-Fill handler: missing
config, failed body discard, or a checked ngx_calloc_buf failure inside the
loop with no earlier unchecked chain-link failure to crash on. -/
def patternFailure (o : PatternOracle) (n : Nat) : Prop :=
  o.confPresent = false ∨ o.discardOk = false ∨
    (o.chainLinkAllocFailAt = none ∧ ∃ k, o.allocFailAt = some k ∧ k < n)

/-- The CHECKED error disjunction of the synchronous Zero-Source-Stream
handler: missing config, failed discard, or — with the ngx_buf_t allocation
succeeding, so the unchecked dereference does not fire — a failed chain,
file or path allocation, or a failed /dev/zero open. -/
def zeroFailure (o : ZeroOracle) : Prop :=
  o.confPresent = false ∨ o.discardOk = false ∨
    (o.bufAllocOk = true ∧
      (o.chainAllocOk = false ∨ o.fileAllocOk = false ∨ o.pathAllocOk = false ∨
        o.openOk = false))

/-- The CHECKED error disjunction of the asynchronous Zero-Source-Stream
handler. -/
def asyncFailure (o : AsyncOracle) : Prop :=
  o.ctxAllocOk = false ∨ o.confPresent = false ∨
    (o.bufAllocOk = true ∧
      (o.chainAllocOk = false ∨ o.fileAllocOk = false ∨ o.openOk = false ∨
        o.clnAllocOk = false))

/-- The CHECKED error disjunction of the Instrumented-Hybrid handler:
missing config, or — with the report block not crashing (clock failed, or
the unchecked response_json allocation succeeded) — a failed discard or a
failed checked allocation. -/
def hybridFailure (o : HybridOracle) : Prop :=
  o.confPresent = false ∨
    ((o.clockOk = false ∨ o.rjAllocOk = true) ∧
      (o.discardOk = false ∨ o.memAllocOk = false ∨ o.bufAllocOk = false))

/-- For the failures the code does check, the claim's behaviour holds in
all four variants: a 500 status and no body bytes from the module, with no
crash. Complementary to the crash theorem below, which covers the unchecked
allocations. -/
theorem dali_internal_failures_terminal_5xx
    (oP : PatternOracle) (nP : Nat) (oZ : ZeroOracle) (sf : Bool) (LZ : Nat)
    (oA : AsyncOracle) (LA : Nat) (oH : HybridOracle) (LH : Nat) (json : List Nat) :
    (patternFailure oP nP →
      ngx_http_dali_handler_pattern oP nP
        = ⟨NGX_HTTP_INTERNAL_SERVER_ERROR, 0, [], false⟩) ∧
    (zeroFailure oZ →
      (ngx_http_dali_handler_zero oZ sf LZ).returned
        = (NGX_HTTP_INTERNAL_SERVER_ERROR : Nat) ∧
      (ngx_http_dali_handler_zero oZ sf LZ).chain = [] ∧
      (ngx_http_dali_handler_zero oZ sf LZ).body_sent = false ∧
      (ngx_http_dali_handler_zero oZ sf LZ).crashed = false) ∧
    (asyncFailure oA →
      (ngx_http_dali_handler_async oA LA).errorStatus
        = some NGX_HTTP_INTERNAL_SERVER_ERROR ∧
      (ngx_http_dali_handler_async oA LA).chain = [] ∧
      (ngx_http_dali_handler_async oA LA).crashed = false) ∧
    (hybridFailure oH →
      ngx_http_dali_handler_hybrid oH LH json
        = ⟨NGX_HTTP_INTERNAL_SERVER_ERROR, 0, [], false, false⟩) := by
  refine ⟨?_, ?_, ?_, ?_⟩
  · intro hf
    rcases hf with h | h | ⟨hcl, k, hk, hkn⟩
    · simp [ngx_http_dali_handler_pattern, h]
    · simp [ngx_http_dali_handler_pattern, h]
    · simp [ngx_http_dali_handler_pattern, patternChainAlloc, patternCrash,
        hcl, hk, hkn]
  · intro hf
    have hrun : ngx_http_dali_handler_zero oZ sf LZ
        = { state_at_header_send := none, final := initialReqState sf, chain := [],
            returned := (NGX_HTTP_INTERNAL_SERVER_ERROR : Nat), body_sent := false,
            crashed := false } := by
      unfold ngx_http_dali_handler_zero
      rcases hf with h | h | ⟨hb, h⟩
      · rw [if_pos (by simp [h])]
      · rw [if_pos (by simp [h])]
      · rcases h with h | h | h | h <;> (split_ifs <;> simp_all)
    rw [hrun]
    exact ⟨rfl, rfl, rfl, rfl⟩
  · intro hf
    unfold ngx_http_dali_handler_async
    rcases hf with h | h | ⟨hb, h⟩
    · split_ifs <;> simp_all
    · split_ifs <;> simp_all
    · rcases h with h | h | h | h <;> (split_ifs <;> simp_all)
  · intro hf
    have hnc : ¬ (oH.confPresent ∧ oH.clockOk ∧ ¬ oH.rjAllocOk) := by
      rcases hf with h | ⟨hcr, _⟩
      · simp [h]
      · rcases hcr with h | h <;> simp [h]
    have hcond : ¬ (oH.confPresent ∧ oH.discardOk ∧ oH.memAllocOk ∧ oH.bufAllocOk) := by
      rcases hf with h | ⟨_, h⟩
      · simp [h]
      · rcases h with h | h | h <;> simp [h]
    simp only [ngx_http_dali_handler_hybrid]
    rw [if_neg hnc, if_pos hcond]

/-- One concrete checked failure per variant, exercising the theorem
above: missing config (Pattern-Fill), failed /dev/zero open (sync zero),
failed ngx_chain_t allocation (async zero), failed body discard (hybrid). -/
theorem dali_internal_failures_terminal_5xx_witness :
    ngx_http_dali_handler_pattern ⟨false, true, none, none⟩ 3
      = ⟨NGX_HTTP_INTERNAL_SERVER_ERROR, 0, [], false⟩ ∧
    ((ngx_http_dali_handler_zero ⟨true, true, true, true, true, true, false, 0, false⟩
        true 500).returned = (NGX_HTTP_INTERNAL_SERVER_ERROR : Nat) ∧
     (ngx_http_dali_handler_zero ⟨true, true, true, true, true, true, false, 0, false⟩
        true 500).chain = [] ∧
     (ngx_http_dali_handler_zero ⟨true, true, true, true, true, true, false, 0, false⟩
        true 500).body_sent = false ∧
     (ngx_http_dali_handler_zero ⟨true, true, true, true, true, true, false, 0, false⟩
        true 500).crashed = false) ∧
    ((ngx_http_dali_handler_async ⟨true, true, false, true, true, true, true⟩ 500).errorStatus
       = some NGX_HTTP_INTERNAL_SERVER_ERROR ∧
     (ngx_http_dali_handler_async ⟨true, true, false, true, true, true, true⟩ 500).chain
       = [] ∧
     (ngx_http_dali_handler_async ⟨true, true, false, true, true, true, true⟩ 500).crashed
       = false) ∧
    ngx_http_dali_handler_hybrid ⟨true, true, false, true, true, true⟩ 256 jsonExample
      = ⟨NGX_HTTP_INTERNAL_SERVER_ERROR, 0, [], false, false⟩ := by
  have h := dali_internal_failures_terminal_5xx ⟨false, true, none, none⟩ 3
    ⟨true, true, true, true, true, true, false, 0, false⟩ true 500
    ⟨true, true, false, true, true, true, true⟩ 500
    ⟨true, true, false, true, true, true⟩ 256 jsonExample
  exact ⟨h.1 (Or.inl rfl),
    h.2.1 (Or.inr (Or.inr ⟨rfl, Or.inr (Or.inr (Or.inr rfl))⟩)),
    h.2.2.1 (Or.inr (Or.inr ⟨rfl, Or.inl rfl⟩)),
    h.2.2.2 (Or.inr ⟨Or.inr rfl, Or.inl rfl⟩)⟩

/-- Claim C9 evaluation at the failing inputs: the four allocation failures
the code does NOT check make the worker dereference NULL instead of
producing the claimed 500-with-empty-body response. Synchronous zero
variant: `buffer->file = ngx_pcalloc(...)` dereferences the unchecked
ngx_buf_t before the NULL test; asynchronous variant: the same through
`dali_ctx->buffer`; Pattern-Fill: the per-iteration ngx_chain_t link is
never tested and `output_chain_iterator->buf` stores through it; hybrid:
`response_json` is never tested and ngx_snprintf writes through it. No
status and no header are ever produced on these paths. -/
theorem dali_alloc_failure_crashes_instead_of_500 :
    (ngx_http_dali_handler_zero ⟨true, true, true, false, true, true, true, 0, false⟩
        true 500).crashed = true ∧
    (ngx_http_dali_handler_zero ⟨true, true, true, false, true, true, true, 0, false⟩
        true 500).state_at_header_send = none ∧
    (ngx_http_dali_handler_async ⟨true, true, true, false, true, true, true⟩ 500).crashed
      = true ∧
    (ngx_http_dali_handler_pattern ⟨true, true, none, some 0⟩ 3).crashed = true ∧
    (ngx_http_dali_handler_hybrid ⟨true, true, true, false, true, true⟩ 256
        jsonExample).crashed = true := by
  decide

end Dali
